import Mathlib

/-!
Shallow embedding of the clip-generation orchestrator and its durable record
store (graybert/rellingth): the data model and store operations follow
src/unnamed/part_002 (the current db.ts), the orchestrator follows
src/electron/clipper.ts, rotation extraction follows src/electron/metadata.ts,
and the startup recovery sweep follows the snippet in src/ARCHITECTURE.md.
External effects (filesystem contents, ffmpeg/ffprobe outcomes, wall-clock
time) are passed in explicitly as an environment.
-/

namespace Rellingth

/-- Review status of a video record (db.ts: VideoStatus). -/
inductive VideoStatus
  | PENDING
  | APPROVED
  | REJECTED
deriving DecidableEq, Repr

/-- Job state of clip generation (db.ts: ClipState). -/
inductive ClipState
  | NOT_STARTED
  | IN_PROGRESS
  | DONE
  | FAILED
deriving DecidableEq, Repr

/-- Probed technical metadata of a video (db.ts: VideoMetadata).  Numeric
fields are rationals standing for the JS numbers; optional fields are absent
when the probe did not produce them. -/
structure VideoMetadata where
  fps : Option ℚ := none
  resolution : Option String := none
  aspectRatioVal : Option String := none
  duration : Option ℚ := none
  rotation : Option String := none
  codec : Option String := none
  fileSize : Option ℕ := none
deriving DecidableEq, Repr

/-- One generated clip descriptor (db.ts: ClipRecord). -/
structure ClipRecord where
  filename : String
  startTime : ℚ
  endTime : ℚ
  duration : ℚ
  fps : Option ℚ := none
  resolution : Option String := none
  fileSize : ℕ
deriving DecidableEq, Repr

/-- One entity record (db.ts: VideoRecord, current schema). -/
structure VideoRecord where
  id : String
  originalFilename : String
  originalPath : String
  preparedVideoPath : Option String
  createdAt : String
  status : VideoStatus
  metadata : Option VideoMetadata
  clipState : ClipState
  lastError : Option String
  clips : List ClipRecord
  lastClipGenerationTime : Option ℚ
deriving DecidableEq, Repr

/-- The in-memory database contents (db.ts: Database). -/
structure Database where
  videos : List VideoRecord
deriving DecidableEq, Repr

/-- A partial update as passed to updateVideo (TS: Partial of VideoRecord).
A field is `none` when the key is absent from the partial object; for fields
that are themselves nullable the inner Option is the stored value. -/
structure VideoUpdate where
  id : Option String := none
  originalFilename : Option String := none
  originalPath : Option String := none
  preparedVideoPath : Option (Option String) := none
  createdAt : Option String := none
  status : Option VideoStatus := none
  metadata : Option (Option VideoMetadata) := none
  clipState : Option ClipState := none
  lastError : Option (Option String) := none
  clips : Option (List ClipRecord) := none
  lastClipGenerationTime : Option (Option ℚ) := none
deriving DecidableEq, Repr

/-- JS object spread of a partial update over a record:
`db.videos[index] = { ...db.videos[index], ...updates }`. -/
def applyUpdate (v : VideoRecord) (u : VideoUpdate) : VideoRecord where
  id := u.id.getD v.id
  originalFilename := u.originalFilename.getD v.originalFilename
  originalPath := u.originalPath.getD v.originalPath
  preparedVideoPath := u.preparedVideoPath.getD v.preparedVideoPath
  createdAt := u.createdAt.getD v.createdAt
  status := u.status.getD v.status
  metadata := u.metadata.getD v.metadata
  clipState := u.clipState.getD v.clipState
  lastError := u.lastError.getD v.lastError
  clips := u.clips.getD v.clips
  lastClipGenerationTime := u.lastClipGenerationTime.getD v.lastClipGenerationTime

/-- Replace the first list element satisfying `p` by its image under `f`;
`none` when no element matches.  This is the `findIndex` + assignment step of
VideoDatabase.updateVideo. -/
def updateFirst (p : α → Bool) (f : α → α) : List α → Option (List α)
  | [] => none
  | x :: xs => if p x then some (f x :: xs) else (updateFirst p f xs).map (x :: ·)

/-- VideoDatabase.updateVideo on in-memory contents: find the record by id,
spread the updates over it, or fail with the not-found message. -/
def updateVideo (db : Database) (videoId : String) (u : VideoUpdate) :
    Except String Database :=
  match updateFirst (fun v => v.id == videoId) (fun v => applyUpdate v u) db.videos with
  | none => Except.error ("Video " ++ videoId ++ " not found")
  | some vs => Except.ok ⟨vs⟩

/-- A persisted record as parsed from db.json before migration
(db.ts: the `any`-typed shape inside readDb): the three fields added by the
newer schema may be absent (`none` models both a missing key and null). -/
structure RawVideo where
  id : String
  originalFilename : String
  originalPath : String
  preparedVideoPath : Option String
  createdAt : String
  status : VideoStatus
  metadata : Option VideoMetadata
  clipState : ClipState
  lastError : Option String
  clips : Option (List ClipRecord)
  lastClipGenerationTime : Option ℚ
deriving DecidableEq, Repr

/-- Read-time migration of one record (db.ts readDb):
`clips: video.clips || []`, `preparedVideoPath: video.preparedVideoPath || null`,
`lastClipGenerationTime: video.lastClipGenerationTime || null`.  The JS `||`
treats the empty string and 0 as falsy, hence the extra cases. -/
def migrateVideo (r : RawVideo) : VideoRecord where
  id := r.id
  originalFilename := r.originalFilename
  originalPath := r.originalPath
  preparedVideoPath := match r.preparedVideoPath with
    | some s => if s = "" then none else some s
    | none => none
  createdAt := r.createdAt
  status := r.status
  metadata := r.metadata
  clipState := r.clipState
  lastError := r.lastError
  clips := r.clips.getD []
  lastClipGenerationTime := match r.lastClipGenerationTime with
    | some t => if t = 0 then none else some t
    | none => none

/-- Parsed contents of the backing db.json file. -/
structure RawDatabase where
  videos : List RawVideo
deriving DecidableEq, Repr

/-- State of the backing db.json file: absent, present but failing
JSON.parse (or otherwise unreadable), or parsed contents. -/
inductive DbFile
  | absent
  | unparseable
  | parsed (raw : RawDatabase)
deriving DecidableEq, Repr

/-- VideoDatabase.readDb: missing file and parse failure both yield the empty
database; otherwise every record is migrated. -/
def readDb : DbFile → Database
  | DbFile.absent => ⟨[]⟩
  | DbFile.unparseable => ⟨[]⟩
  | DbFile.parsed raw => ⟨raw.videos.map migrateVideo⟩

/-- Serialization of a current-schema record back to the persisted shape
(JSON.stringify writes every field). -/
def toRawVideo (v : VideoRecord) : RawVideo where
  id := v.id
  originalFilename := v.originalFilename
  originalPath := v.originalPath
  preparedVideoPath := v.preparedVideoPath
  createdAt := v.createdAt
  status := v.status
  metadata := v.metadata
  clipState := v.clipState
  lastError := v.lastError
  clips := some v.clips
  lastClipGenerationTime := v.lastClipGenerationTime

/-- VideoDatabase.writeDb: the whole store is rewritten
(write-temp-then-rename; the file afterwards parses to exactly `db`). -/
def writeDb (db : Database) : DbFile :=
  DbFile.parsed ⟨db.videos.map toRawVideo⟩

/-- VideoDatabase.getVideo: `db.videos.find(v => v.id === videoId) || null`. -/
def getVideo (s : DbFile) (videoId : String) : Option VideoRecord :=
  (readDb s).videos.find? (fun v => v.id == videoId)

/-- VideoDatabase.listVideos: sort by createdAt descending, where `dateKey`
models `new Date(s).getTime()`. -/
def listVideos (dateKey : String → ℤ) (s : DbFile) : List VideoRecord :=
  (readDb s).videos.insertionSort (fun a b => dateKey b.createdAt ≤ dateKey a.createdAt)

/-- VideoDatabase.createVideo: read, push, write whole store. -/
def createVideo (s : DbFile) (v : VideoRecord) : DbFile :=
  writeDb ⟨(readDb s).videos ++ [v]⟩

/-- VideoDatabase.updateVideo at the file level: read, modify, write; the
throw happens before writeDb, so an error leaves the file untouched. -/
def updateVideoFile (s : DbFile) (videoId : String) (u : VideoUpdate) :
    Except String DbFile :=
  (updateVideo (readDb s) videoId u).map writeDb

/-- One external-tool invocation made by the orchestrator: the ffmpeg
prepared-video run, the ffmpeg segmentation run, or an ffprobe call on one
chunk file. -/
inductive ToolCall
  | prepare
  | segment
  | probe (filename : String)
deriving DecidableEq, Repr

/-- Parsed ffprobe output for one chunk, as used by getClipMetadata
(format.duration parsed, fps computed from r_frame_rate, WxH resolution). -/
structure ProbeData where
  duration : Option ℚ := none
  fps : Option ℚ := none
  resolution : Option String := none
deriving DecidableEq, Repr

/-- The environment a generateClips run observes: clips-directory contents at
entry, existence of the prepared artifact, the outcome of each possible
ffmpeg run, the files a segmentation run leaves in the clips directory, the
per-file ffprobe outcome (`none` = the probe threw or was unparseable), file
sizes from fs.statSync, and the wall-clock seconds of the run. -/
structure ClipperEnv where
  diskFiles : List String
  preparedExists : Bool
  prepareOutcome : Except String Unit
  segmentOutcome : Except String Unit
  segmentFiles : List String
  probe : String → Option ProbeData
  fileSize : String → ℕ
  elapsed : ℚ

/-- What getClipMetadata returns: a partial ClipRecord. -/
structure PartialClipMeta where
  duration : Option ℚ
  fps : Option ℚ
  resolution : Option String
  fileSize : ℕ
deriving DecidableEq, Repr

/-- clipper.ts getClipMetadata: on probe success the parsed fields plus the
statSync size; on any probe failure the catch returns only the size. -/
def getClipMetadata (env : ClipperEnv) (filename : String) : PartialClipMeta :=
  match env.probe filename with
  | some pd => ⟨pd.duration, pd.fps, pd.resolution, env.fileSize filename⟩
  | none => ⟨none, none, none, env.fileSize filename⟩

/-- JS String.prototype.endsWith as used by the `.mp4` filters, modelled
over the character list so that it evaluates by kernel reduction. -/
def strEndsWith (s suffix : String) : Bool :=
  suffix.data.isSuffixOf s.data

/-- clipper.ts deleteClipsFromDisk: unlink every `.mp4` file in the clips
directory (no-op when the directory is absent, i.e. the list is empty). -/
def deleteClipsFromDisk (disk : List String) : List String :=
  disk.filter (fun f => !(strEndsWith f ".mp4"))

/-- One iteration of the metadata loop in generateClips: start offset is
`i * 120`, duration is the probed duration with the JS falsy fallback
`metadata.duration || 120`, end offset is start plus duration. -/
def mkClip (env : ClipperEnv) (i : ℕ) (filename : String) : ClipRecord :=
  let startTime : ℚ := (i : ℚ) * 120
  let m := getClipMetadata env filename
  let clipDuration : ℚ := match m.duration with
    | some d => if d = 0 then 120 else d
    | none => 120
  { filename := filename
    startTime := startTime
    endTime := startTime + clipDuration
    duration := clipDuration
    fps := m.fps
    resolution := m.resolution
    fileSize := m.fileSize }

/-- The indexed for-loop over the sorted chunk files in generateClips. -/
def buildClips (env : ClipperEnv) : ℕ → List String → List ClipRecord
  | _, [] => []
  | i, f :: fs => mkClip env i f :: buildClips env (i + 1) fs

/-- What a generateClips call returns on success (clipper.ts
ClipGenerationResult). -/
structure ClipGenerationResult where
  clips : List ClipRecord
  generationTimeSeconds : ℚ
deriving DecidableEq, Repr

/-- Full observable outcome of a generateClips call: the stored record after
all updateVideo calls, the clips-directory contents, the external tool
invocations in order, and the returned value or re-raised error. -/
structure GenResult where
  record : VideoRecord
  disk : List String
  calls : List ToolCall
  ret : Except String ClipGenerationResult
deriving Repr

/-- The catch block of generateClips: delete partial chunks again, store
FAILED with the derived message and empty clips, re-raise. -/
def failResult (v : VideoRecord) (disk : List String) (calls : List ToolCall)
    (msg : String) : GenResult :=
  let errorMessage := "ffmpeg failed: " ++ msg
  { record := { v with clipState := ClipState.FAILED
                       lastError := some errorMessage
                       clips := [] }
    disk := deleteClipsFromDisk disk
    calls := calls
    ret := Except.error errorMessage }

/-- The segmentation ffmpeg run and everything after it in generateClips:
the run adds its files to the clips directory whether or not it succeeds; on
success the directory is re-scanned (filter `.mp4`, sort by name), each chunk
is probed, and the DONE record is stored. -/
def segmentPhase (v : VideoRecord) (disk : List String) (calls0 : List ToolCall)
    (env : ClipperEnv) : GenResult :=
  let disk2 := disk ++ env.segmentFiles
  let calls1 := calls0 ++ [ToolCall.segment]
  match env.segmentOutcome with
  | Except.error msg => failResult v disk2 calls1 msg
  | Except.ok _ =>
    let clipFiles :=
      (disk2.filter (fun f => strEndsWith f ".mp4")).insertionSort
        (fun a b => a.data ≤ b.data)
    let clips := buildClips env 0 clipFiles
    let vDone := { v with clips := clips
                          clipState := ClipState.DONE
                          lastError := none
                          lastClipGenerationTime := some env.elapsed }
    { record := vDone
      disk := disk2
      calls := calls1 ++ clipFiles.map ToolCall.probe
      ret := Except.ok ⟨clips, env.elapsed⟩ }

/-- The body of generateClips past the idempotency check: store IN_PROGRESS
with cleared lastError, clean-slate the clips directory, in precise mode
create the prepared artifact when it is missing (persisting its path, and
rolling back if that ffmpeg run fails), then segment. -/
def generateClipsRun (video : VideoRecord) (preciseMode : Bool)
    (preparedPath : String) (env : ClipperEnv) : GenResult :=
  let v1 := { video with clipState := ClipState.IN_PROGRESS, lastError := none }
  let disk1 := deleteClipsFromDisk env.diskFiles
  if preciseMode then
    if env.preparedExists then
      segmentPhase v1 disk1 [] env
    else
      match env.prepareOutcome with
      | Except.error msg => failResult v1 disk1 [ToolCall.prepare] msg
      | Except.ok _ =>
        let v2 := { v1 with preparedVideoPath := some preparedPath }
        segmentPhase v2 disk1 [ToolCall.prepare] env
  else
    segmentPhase v1 disk1 [] env

/-- clipper.ts generateClips for an existing record: the idempotency check
(DONE with a non-empty clips list and every listed file present on disk)
returns the stored clips with zero elapsed time and touches nothing;
otherwise the full body runs. -/
def generateClips (video : VideoRecord) (preciseMode : Bool)
    (preparedPath : String) (env : ClipperEnv) : GenResult :=
  if video.clipState = ClipState.DONE ∧ 0 < video.clips.length then
    if video.clips.all (fun c => env.diskFiles.contains c.filename) then
      { record := video
        disk := env.diskFiles
        calls := []
        ret := Except.ok ⟨video.clips, 0⟩ }
    else
      generateClipsRun video preciseMode preparedPath env
  else
    generateClipsRun video preciseMode preparedPath env

/-- Modelled from the spec: the Startup Recovery Sweep is quoted in
src/ARCHITECTURE.md (its main.ts implementation is not among the source
files).  For every record with clipState IN_PROGRESS it stores FAILED with
the fixed interruption diagnostic; every other record is left alone. -/
def recoverySweep (videos : List VideoRecord) : List VideoRecord :=
  videos.map (fun v =>
    if v.clipState = ClipState.IN_PROGRESS then
      { v with clipState := ClipState.FAILED
               lastError := some "Clipping was interrupted (app closed or crashed). Please retry." }
    else v)

instance : IsTotal String (fun a b : String => a.data ≤ b.data) :=
  ⟨fun a b => le_total a.data b.data⟩

instance : IsTrans String (fun a b : String => a.data ≤ b.data) :=
  ⟨fun _ _ _ h h2 => le_trans h h2⟩

/-- The rotation-bearing part of one ffprobe video stream as read by
metadata.ts: each side_data_list entry's optional rotation field, and the
optional legacy tags.rotate string. -/
structure StreamRotationInfo where
  side_data_list : Option (List (Option ℤ))
  tagsRotate : Option String
deriving DecidableEq, Repr

/-- metadata.ts extractMetadata, rotation part: prefer the first
side_data_list entry carrying a rotation field, else fall back to
tags.rotate, else report no rotation. -/
def extractRotation (s : StreamRotationInfo) : Option String :=
  let fromSideData : Option String :=
    match s.side_data_list with
    | none => none
    | some sdl =>
      match sdl.find? (fun e => e.isSome) with
      | some (some r) => some (toString r ++ "°")
      | some none => none
      | none => none
  match fromSideData with
  | some r => some r
  | none => s.tagsRotate.map (fun t => t ++ "°")

/-! ## Helper lemmas -/

theorem updateFirst_eq_none_iff (p : α → Bool) (f : α → α) :
    ∀ l : List α, updateFirst p f l = none ↔ ∀ x ∈ l, ¬ p x = true := by
  intro l
  induction l with
  | nil => simp [updateFirst]
  | cons x xs ih =>
    by_cases hpx : p x = true
    · simp [updateFirst, hpx]
    · simp [updateFirst, hpx, Option.map_eq_none', ih]

theorem updateFirst_eq_some (p : α → Bool) (f : α → α) :
    ∀ {l r : List α}, updateFirst p f l = some r →
      ∃ pre x post, l = pre ++ x :: post ∧ (∀ v ∈ pre, ¬ p v = true) ∧
        p x = true ∧ r = pre ++ f x :: post := by
  intro l
  induction l with
  | nil => intro r h; simp [updateFirst] at h
  | cons x xs ih =>
    intro r h
    by_cases hpx : p x = true
    · refine ⟨[], x, xs, by simp, by simp, hpx, ?_⟩
      simp [updateFirst, hpx] at h
      simp [← h]
    · simp [updateFirst, hpx] at h
      obtain ⟨r2, hr2, hcons⟩ := h
      obtain ⟨pre, y, post, hl, hpre, hpy, hr⟩ := ih hr2
      exact ⟨x :: pre, y, post, by simp [hl], by
        intro v hv
        rcases List.mem_cons.mp hv with h1 | h1
        · simpa [h1] using hpx
        · exact hpre v h1, hpy, by simp [← hcons, hr]⟩

/-- A concrete record used by witnesses. -/
def sampleRecord (videoId : String) (st : ClipState) (clips : List ClipRecord) :
    VideoRecord where
  id := videoId
  originalFilename := "original.mp4"
  originalPath := "/data/videos/original.mp4"
  preparedVideoPath := none
  createdAt := "2024-01-01T00:00:00.000Z"
  status := VideoStatus.PENDING
  metadata := none
  clipState := st
  lastError := none
  clips := clips
  lastClipGenerationTime := none

/-! ## Claim theorems -/

/-- C7: for every store state, updateVideo changes only the fields named in
the partial update of the first record whose id matches, preserves every
unspecified field of that record and every other record, and throws the
not-found error (performing no write) when no record has that id. -/
theorem updateVideo_frame (db : Database) (videoId : String) (u : VideoUpdate) :
    ((∀ v ∈ db.videos, v.id ≠ videoId) →
        updateVideo db videoId u =
          Except.error ("Video " ++ videoId ++ " not found")) ∧
    (∀ db2, updateVideo db videoId u = Except.ok db2 →
        ∃ pre x post, db.videos = pre ++ x :: post ∧
          (∀ v ∈ pre, v.id ≠ videoId) ∧ x.id = videoId ∧
          db2.videos = pre ++ applyUpdate x u :: post) ∧
    (∀ v : VideoRecord,
        (u.id = none → (applyUpdate v u).id = v.id) ∧
        (u.originalFilename = none →
          (applyUpdate v u).originalFilename = v.originalFilename) ∧
        (u.originalPath = none → (applyUpdate v u).originalPath = v.originalPath) ∧
        (u.preparedVideoPath = none →
          (applyUpdate v u).preparedVideoPath = v.preparedVideoPath) ∧
        (u.createdAt = none → (applyUpdate v u).createdAt = v.createdAt) ∧
        (u.status = none → (applyUpdate v u).status = v.status) ∧
        (u.metadata = none → (applyUpdate v u).metadata = v.metadata) ∧
        (u.clipState = none → (applyUpdate v u).clipState = v.clipState) ∧
        (u.lastError = none → (applyUpdate v u).lastError = v.lastError) ∧
        (u.clips = none → (applyUpdate v u).clips = v.clips) ∧
        (u.lastClipGenerationTime = none →
          (applyUpdate v u).lastClipGenerationTime = v.lastClipGenerationTime)) ∧
    (∀ s : DbFile, (∀ v ∈ (readDb s).videos, v.id ≠ videoId) →
        updateVideoFile s videoId u =
          Except.error ("Video " ++ videoId ++ " not found")) := by
  have herr : ∀ d : Database, (∀ v ∈ d.videos, v.id ≠ videoId) →
      updateVideo d videoId u =
        Except.error ("Video " ++ videoId ++ " not found") := by
    intro d h
    have hnone : updateFirst (fun v => v.id == videoId)
        (fun v => applyUpdate v u) d.videos = none :=
      (updateFirst_eq_none_iff _ _ _).mpr (by intro x hx; simpa using h x hx)
    simp [updateVideo, hnone]
  refine ⟨herr db, ?_, ?_, ?_⟩
  · intro db2 hok
    unfold updateVideo at hok
    cases heq : updateFirst (fun v => v.id == videoId)
        (fun v => applyUpdate v u) db.videos with
    | none => rw [heq] at hok; cases hok
    | some vs =>
      rw [heq] at hok
      obtain ⟨pre, x, post, hl, hpre, hpx, hr⟩ := updateFirst_eq_some _ _ heq
      refine ⟨pre, x, post, hl, ?_, by simpa using hpx, ?_⟩
      · intro v hv; simpa using hpre v hv
      · cases hok; simpa using hr
  · intro v
    refine ⟨?_, ?_, ?_, ?_, ?_, ?_, ?_, ?_, ?_, ?_, ?_⟩ <;>
      (intro h; simp [applyUpdate, h])
  · intro s h
    simp [updateVideoFile, herr (readDb s) h, Except.map]

/-- Witness for C7: in a store holding only the record with id vid-a, the
update targeting vid-b fails with the not-found message. -/
theorem updateVideo_frame_witness :
    updateVideo ⟨[sampleRecord "vid-a" ClipState.NOT_STARTED []]⟩ "vid-b"
        { clipState := some ClipState.DONE } =
      Except.error "Video vid-b not found" :=
  (updateVideo_frame ⟨[sampleRecord "vid-a" ClipState.NOT_STARTED []]⟩ "vid-b"
    { clipState := some ClipState.DONE }).1 (by decide)

/-- C10: a present but unparseable backing file is read as an empty store:
getVideo finds nothing, listVideos is empty, updateVideo throws not-found
for every id, and a subsequent createVideo rewrites the file to contain
exactly the one new record. -/
theorem unreadableDb_treated_as_empty :
    (∀ videoId, getVideo DbFile.unparseable videoId = none) ∧
    (∀ dateKey, listVideos dateKey DbFile.unparseable = []) ∧
    (∀ videoId u, updateVideoFile DbFile.unparseable videoId u =
        Except.error ("Video " ++ videoId ++ " not found")) ∧
    (∀ v, createVideo DbFile.unparseable v = DbFile.parsed ⟨[toRawVideo v]⟩) := by
  refine ⟨?_, ?_, ?_, ?_⟩
  · intro videoId; simp [getVideo, readDb]
  · intro dateKey; simp [listVideos, readDb, List.insertionSort]
  · intro videoId u
    simp [updateVideoFile, readDb, updateVideo, updateFirst, Except.map]
  · intro v; simp [createVideo, readDb, writeDb]

theorem run_invokes_transcode (video : VideoRecord) (preciseMode : Bool)
    (preparedPath : String) (env : ClipperEnv) :
    ∃ t ∈ (generateClipsRun video preciseMode preparedPath env).calls,
      t = ToolCall.prepare ∨ t = ToolCall.segment := by
  unfold generateClipsRun
  cases preciseMode with
  | false =>
    cases hs : env.segmentOutcome with
    | error m =>
      exact ⟨ToolCall.segment, by simp [segmentPhase, failResult, hs], Or.inr rfl⟩
    | ok u =>
      exact ⟨ToolCall.segment, by simp [segmentPhase, hs], Or.inr rfl⟩
  | true =>
    cases hp : env.preparedExists with
    | true =>
      cases hs : env.segmentOutcome with
      | error m =>
        exact ⟨ToolCall.segment, by simp [hp, segmentPhase, failResult, hs], Or.inr rfl⟩
      | ok u =>
        exact ⟨ToolCall.segment, by simp [hp, segmentPhase, hs], Or.inr rfl⟩
    | false =>
      cases hpo : env.prepareOutcome with
      | error m =>
        exact ⟨ToolCall.prepare, by simp [hp, hpo, failResult], Or.inl rfl⟩
      | ok u =>
        cases hs : env.segmentOutcome with
        | error m =>
          exact ⟨ToolCall.prepare,
            by simp [hp, hpo, segmentPhase, failResult, hs], Or.inl rfl⟩
        | ok u2 =>
          exact ⟨ToolCall.prepare, by simp [hp, hpo, segmentPhase, hs], Or.inl rfl⟩

theorem generateClips_eq_run_of_not_skip (video : VideoRecord) (preciseMode : Bool)
    (preparedPath : String) (env : ClipperEnv)
    (hns : ¬(video.clipState = ClipState.DONE ∧ video.clips ≠ [] ∧
        ∀ c ∈ video.clips, c.filename ∈ env.diskFiles)) :
    generateClips video preciseMode preparedPath env =
      generateClipsRun video preciseMode preparedPath env := by
  unfold generateClips
  by_cases h1 : video.clipState = ClipState.DONE ∧ 0 < video.clips.length
  · rw [if_pos h1]
    have hne : video.clips ≠ [] := List.ne_nil_of_length_pos h1.2
    have hnall : ¬(video.clips.all
        (fun c => env.diskFiles.contains c.filename) = true) := by
      intro hall
      refine hns ⟨h1.1, hne, ?_⟩
      intro c hc
      have := List.all_eq_true.mp hall c hc
      simpa using this
    simp only [if_neg hnall]
  · rw [if_neg h1]

/-- C1: with jobState DONE, a non-empty stored clip list and every listed
file present, generateClips returns the stored clips with zero elapsed time,
makes no tool call and changes nothing; with a listed file missing it falls
through to a full regeneration that invokes ffmpeg. -/
theorem generateClips_idempotency (video : VideoRecord) (preciseMode : Bool)
    (preparedPath : String) (env : ClipperEnv) :
    (video.clipState = ClipState.DONE → video.clips ≠ [] →
      (∀ c ∈ video.clips, c.filename ∈ env.diskFiles) →
      generateClips video preciseMode preparedPath env =
        { record := video, disk := env.diskFiles, calls := [],
          ret := Except.ok ⟨video.clips, 0⟩ }) ∧
    (video.clipState = ClipState.DONE → video.clips ≠ [] →
      (∃ c ∈ video.clips, c.filename ∉ env.diskFiles) →
      ∃ t ∈ (generateClips video preciseMode preparedPath env).calls,
        t = ToolCall.prepare ∨ t = ToolCall.segment) := by
  constructor
  · intro hdone hne hall
    have hcond : video.clipState = ClipState.DONE ∧ 0 < video.clips.length :=
      ⟨hdone, List.length_pos.mpr hne⟩
    have hB : video.clips.all (fun c => env.diskFiles.contains c.filename) = true := by
      rw [List.all_eq_true]
      intro c hc
      simpa using hall c hc
    unfold generateClips
    rw [if_pos hcond, if_pos hB]
  · intro hdone hne hmiss
    have heq := generateClips_eq_run_of_not_skip video preciseMode preparedPath env
      (by
        rintro ⟨-, -, hall⟩
        obtain ⟨c, hc, hnm⟩ := hmiss
        exact hnm (hall c hc))
    rw [heq]
    exact run_invokes_transcode video preciseMode preparedPath env

/-- A concrete environment used by witnesses: the one stored clip file is
present on disk. -/
def envIdem : ClipperEnv where
  diskFiles := ["clip_000.mp4"]
  preparedExists := false
  prepareOutcome := Except.ok ()
  segmentOutcome := Except.ok ()
  segmentFiles := []
  probe := fun _ => none
  fileSize := fun _ => 0
  elapsed := 3

/-- A concrete stored clip used by witnesses. -/
def doneClip : ClipRecord where
  filename := "clip_000.mp4"
  startTime := 0
  endTime := 120
  duration := 120
  fileSize := 5

/-- Witness for C1: a DONE record whose single clip file exists short-circuits
with the stored clips, zero time and no tool call, while the same record with
the file deleted from disk reaches an ffmpeg invocation. -/
theorem generateClips_idempotency_witness :
    (generateClips (sampleRecord "vid-a" ClipState.DONE [doneClip]) false
        "prepared.mp4" envIdem =
      { record := sampleRecord "vid-a" ClipState.DONE [doneClip],
        disk := ["clip_000.mp4"], calls := [],
        ret := Except.ok ⟨[doneClip], 0⟩ }) ∧
    (∃ t ∈ (generateClips (sampleRecord "vid-a" ClipState.DONE [doneClip]) false
        "prepared.mp4" { envIdem with diskFiles := [] }).calls,
      t = ToolCall.prepare ∨ t = ToolCall.segment) :=
  ⟨(generateClips_idempotency (sampleRecord "vid-a" ClipState.DONE [doneClip])
      false "prepared.mp4" envIdem).1 rfl (by decide) (by decide),
   (generateClips_idempotency (sampleRecord "vid-a" ClipState.DONE [doneClip])
      false "prepared.mp4" { envIdem with diskFiles := [] }).2 rfl (by decide)
      ⟨doneClip, List.mem_singleton.mpr rfl, by simp⟩⟩

/-- C9: a DONE record with an empty clips list (the result of migrating an
old-schema record without a clips field) does not take the idempotency
short-circuit: the full body runs and ffmpeg is invoked. -/
theorem done_empty_clips_regenerates (video : VideoRecord) (preciseMode : Bool)
    (preparedPath : String) (env : ClipperEnv) :
    (video.clipState = ClipState.DONE → video.clips = [] →
      generateClips video preciseMode preparedPath env =
        generateClipsRun video preciseMode preparedPath env ∧
      ∃ t ∈ (generateClips video preciseMode preparedPath env).calls,
        t = ToolCall.prepare ∨ t = ToolCall.segment) ∧
    (∀ r : RawVideo, r.clips = none → (migrateVideo r).clips = []) := by
  constructor
  · intro hdone hclips
    have heq := generateClips_eq_run_of_not_skip video preciseMode preparedPath env
      (by rintro ⟨-, hne, -⟩; exact hne hclips)
    exact ⟨heq, heq ▸ run_invokes_transcode video preciseMode preparedPath env⟩
  · intro r h
    simp [migrateVideo, h]

/-- Witness for C9: a concrete DONE record with empty clips proceeds to the
full run. -/
theorem done_empty_clips_regenerates_witness :
    generateClips (sampleRecord "vid-a" ClipState.DONE []) false
        "prepared.mp4" envIdem =
      generateClipsRun (sampleRecord "vid-a" ClipState.DONE []) false
        "prepared.mp4" envIdem ∧
    ∃ t ∈ (generateClips (sampleRecord "vid-a" ClipState.DONE []) false
        "prepared.mp4" envIdem).calls,
      t = ToolCall.prepare ∨ t = ToolCall.segment :=
  (done_empty_clips_regenerates (sampleRecord "vid-a" ClipState.DONE []) false
    "prepared.mp4" envIdem).1 rfl rfl

theorem filter_mp4_deleteClips (disk : List String) :
    (deleteClipsFromDisk disk).filter (fun f => strEndsWith f ".mp4") = [] := by
  unfold deleteClipsFromDisk
  induction disk with
  | nil => rfl
  | cons f fs ih =>
    by_cases h : strEndsWith f ".mp4" = true
    · simp only [List.filter_cons, h, Bool.not_true]
      exact ih
    · simp only [List.filter_cons, h, Bool.not_false, List.filter_cons,
        Bool.not_eq_true] at ih ⊢
      simp [h, ih]

/-- C4: when an ffmpeg invocation fails (segmentation, or prepared-video
creation in precise mode), generateClips re-raises the derived message and
leaves the record FAILED with empty clips and that message as lastError, and
the clips directory holds no .mp4 file. -/
theorem rollback_on_tool_failure (video : VideoRecord) (preciseMode : Bool)
    (preparedPath : String) (env : ClipperEnv)
    (hns : ¬(video.clipState = ClipState.DONE ∧ video.clips ≠ [] ∧
        ∀ c ∈ video.clips, c.filename ∈ env.diskFiles))
    (hf : (∃ m, env.segmentOutcome = Except.error m) ∨
        (preciseMode = true ∧ env.preparedExists = false ∧
          ∃ m, env.prepareOutcome = Except.error m)) :
    ∃ msg em,
      (generateClips video preciseMode preparedPath env).ret = Except.error msg ∧
      msg = "ffmpeg failed: " ++ em ∧
      (generateClips video preciseMode preparedPath env).record.clips = [] ∧
      (generateClips video preciseMode preparedPath env).record.clipState =
        ClipState.FAILED ∧
      (generateClips video preciseMode preparedPath env).record.lastError =
        some msg ∧
      ((generateClips video preciseMode preparedPath env).disk.filter
          (fun f => strEndsWith f ".mp4")) = [] := by
  rw [generateClips_eq_run_of_not_skip video preciseMode preparedPath env hns]
  unfold generateClipsRun
  cases preciseMode with
  | false =>
    rcases hf with ⟨m, hm⟩ | ⟨hpm, -, -⟩
    · exact ⟨"ffmpeg failed: " ++ m, m,
        by simp [segmentPhase, hm, failResult],
        rfl,
        by simp [segmentPhase, hm, failResult],
        by simp [segmentPhase, hm, failResult],
        by simp [segmentPhase, hm, failResult],
        by simp [segmentPhase, hm, failResult, filter_mp4_deleteClips]⟩
    · cases hpm
  | true =>
    cases hp : env.preparedExists with
    | true =>
      rcases hf with ⟨m, hm⟩ | ⟨-, hpe, -⟩
      · exact ⟨"ffmpeg failed: " ++ m, m,
          by simp [hp, segmentPhase, hm, failResult],
          rfl,
          by simp [hp, segmentPhase, hm, failResult],
          by simp [hp, segmentPhase, hm, failResult],
          by simp [hp, segmentPhase, hm, failResult],
          by simp [hp, segmentPhase, hm, failResult, filter_mp4_deleteClips]⟩
      · rw [hp] at hpe; cases hpe
    | false =>
      cases hpo : env.prepareOutcome with
      | error m =>
        exact ⟨"ffmpeg failed: " ++ m, m,
          by simp [hp, hpo, failResult],
          rfl,
          by simp [hp, hpo, failResult],
          by simp [hp, hpo, failResult],
          by simp [hp, hpo, failResult],
          by simp [hp, hpo, failResult, filter_mp4_deleteClips]⟩
      | ok u =>
        rcases hf with ⟨m, hm⟩ | ⟨-, -, m, hpe⟩
        · exact ⟨"ffmpeg failed: " ++ m, m,
            by simp [hp, hpo, segmentPhase, hm, failResult],
            rfl,
            by simp [hp, hpo, segmentPhase, hm, failResult],
            by simp [hp, hpo, segmentPhase, hm, failResult],
            by simp [hp, hpo, segmentPhase, hm, failResult],
            by simp [hp, hpo, segmentPhase, hm, failResult,
              filter_mp4_deleteClips]⟩
        · rw [hpo] at hpe; cases hpe

/-- Concrete environment whose segmentation run fails. -/
def envFail : ClipperEnv :=
  { envIdem with diskFiles := ["stale_000.mp4"],
                 segmentFiles := ["clip_000.mp4"],
                 segmentOutcome := Except.error "boom" }

/-- Witness for C4 at a concrete failing segmentation. -/
theorem rollback_on_tool_failure_witness :
    ∃ msg em,
      (generateClips (sampleRecord "vid-a" ClipState.NOT_STARTED []) false
          "prepared.mp4" envFail).ret = Except.error msg ∧
      msg = "ffmpeg failed: " ++ em ∧
      (generateClips (sampleRecord "vid-a" ClipState.NOT_STARTED []) false
          "prepared.mp4" envFail).record.clips = [] ∧
      (generateClips (sampleRecord "vid-a" ClipState.NOT_STARTED []) false
          "prepared.mp4" envFail).record.clipState = ClipState.FAILED ∧
      (generateClips (sampleRecord "vid-a" ClipState.NOT_STARTED []) false
          "prepared.mp4" envFail).record.lastError = some msg ∧
      ((generateClips (sampleRecord "vid-a" ClipState.NOT_STARTED []) false
          "prepared.mp4" envFail).disk.filter
          (fun f => strEndsWith f ".mp4")) = [] :=
  rollback_on_tool_failure (sampleRecord "vid-a" ClipState.NOT_STARTED []) false
    "prepared.mp4" envFail (by decide) (Or.inl ⟨"boom", rfl⟩)

theorem buildClips_length (env : ClipperEnv) :
    ∀ (i : ℕ) (fs : List String), (buildClips env i fs).length = fs.length := by
  intro i fs
  induction fs generalizing i with
  | nil => rfl
  | cons f fs ih => simp [buildClips, ih]

theorem mkClip_filename (env : ClipperEnv) (i : ℕ) (f : String) :
    (mkClip env i f).filename = f := rfl

theorem mkClip_startTime (env : ClipperEnv) (i : ℕ) (f : String) :
    (mkClip env i f).startTime = (i : ℚ) * 120 := rfl

theorem mkClip_endTime (env : ClipperEnv) (i : ℕ) (f : String) :
    (mkClip env i f).endTime = (mkClip env i f).startTime + (mkClip env i f).duration :=
  rfl

theorem mkClip_duration_of_probe_none (env : ClipperEnv) (i : ℕ) (f : String)
    (h : env.probe f = none) : (mkClip env i f).duration = 120 := by
  simp [mkClip, getClipMetadata, h]

theorem mkClip_duration_of_probe_some (env : ClipperEnv) (i : ℕ) (f : String)
    (pd : ProbeData) (d : ℚ) (hp : env.probe f = some pd)
    (hd : pd.duration = some d) (hne : d ≠ 0) : (mkClip env i f).duration = d := by
  simp [mkClip, getClipMetadata, hp, hd, hne]

theorem buildClips_get (env : ClipperEnv) :
    ∀ (fs : List String) (i j : ℕ) (h : j < fs.length),
      (buildClips env i fs).get ⟨j, by rw [buildClips_length]; exact h⟩ =
        mkClip env (i + j) (fs.get ⟨j, h⟩) := by
  intro fs
  induction fs with
  | nil => intro i j h; exact absurd h (Nat.not_lt_zero j)
  | cons f fs ih =>
    intro i j h
    cases j with
    | zero => simp [buildClips]
    | succ j2 =>
      have hlt : j2 < fs.length := Nat.lt_of_succ_lt_succ h
      have heq := ih (i + 1) j2 hlt
      have harith : i + 1 + j2 = i + (j2 + 1) := by omega
      rw [harith] at heq
      exact heq

theorem buildClips_map_filename (env : ClipperEnv) :
    ∀ (i : ℕ) (fs : List String),
      (buildClips env i fs).map ClipRecord.filename = fs := by
  intro i fs
  induction fs generalizing i with
  | nil => rfl
  | cons f fs ih => simp [buildClips, mkClip, ih]

theorem segmentPhase_props (v : VideoRecord) (disk : List String)
    (calls0 : List ToolCall) (env : ClipperEnv)
    (hseg : env.segmentOutcome = Except.ok ()) :
    ∃ clips,
      (segmentPhase v disk calls0 env).ret = Except.ok ⟨clips, env.elapsed⟩ ∧
      (segmentPhase v disk calls0 env).record.clips = clips ∧
      (segmentPhase v disk calls0 env).record.clipState = ClipState.DONE ∧
      List.Sorted (fun a b : String => a ≤ b) (clips.map ClipRecord.filename) ∧
      ∀ i (h : i < clips.length),
        (clips.get ⟨i, h⟩).startTime = (i : ℚ) * 120 ∧
        (clips.get ⟨i, h⟩).endTime =
          (clips.get ⟨i, h⟩).startTime + (clips.get ⟨i, h⟩).duration ∧
        (∀ pd d, env.probe ((clips.get ⟨i, h⟩).filename) = some pd →
          pd.duration = some d → d ≠ 0 → (clips.get ⟨i, h⟩).duration = d) ∧
        (env.probe ((clips.get ⟨i, h⟩).filename) = none →
          (clips.get ⟨i, h⟩).duration = 120) := by
  refine ⟨buildClips env 0 (((disk ++ env.segmentFiles).filter
      (fun f => strEndsWith f ".mp4")).insertionSort (fun a b => a.data ≤ b.data)),
    ?_, ?_, ?_, ?_, ?_⟩
  · simp [segmentPhase, hseg]
  · simp [segmentPhase, hseg]
  · simp [segmentPhase, hseg]
  · rw [buildClips_map_filename]
    have hs := List.sorted_insertionSort (fun a b : String => a.data ≤ b.data)
      ((disk ++ env.segmentFiles).filter (fun f => strEndsWith f ".mp4"))
    exact hs.imp (fun h => String.le_iff_toList_le.mpr h)
  · intro i h
    have hlen : i < (((disk ++ env.segmentFiles).filter
        (fun f => strEndsWith f ".mp4")).insertionSort
        (fun a b => a.data ≤ b.data)).length := by
      rw [← buildClips_length env 0]; exact h
    have hget := buildClips_get env (((disk ++ env.segmentFiles).filter
        (fun f => strEndsWith f ".mp4")).insertionSort
        (fun a b => a.data ≤ b.data)) 0 i hlen
    rw [hget]
    refine ⟨?_, mkClip_endTime env _ _, ?_, ?_⟩
    · rw [mkClip_startTime]; push_cast; ring
    · intro pd d hp hd hne
      exact mkClip_duration_of_probe_some env _ _ pd d
        (by rwa [mkClip_filename] at hp) hd hne
    · intro hp
      exact mkClip_duration_of_probe_none env _ _ (by rwa [mkClip_filename] at hp)

/-- C6: a successful run enumerates the produced .mp4 files sorted by name,
gives chunk i the start offset i * 120 and the end offset start + duration,
where duration is the probed actual duration whenever the probe succeeds
with a non-zero duration and equals the nominal 120 when probing that chunk
fails, and a probe failure never turns the run into an error. -/
theorem chunk_enumeration (video : VideoRecord) (preciseMode : Bool)
    (preparedPath : String) (env : ClipperEnv)
    (hns : ¬(video.clipState = ClipState.DONE ∧ video.clips ≠ [] ∧
        ∀ c ∈ video.clips, c.filename ∈ env.diskFiles))
    (hprep : preciseMode = false ∨ env.preparedExists = true ∨
        env.prepareOutcome = Except.ok ())
    (hseg : env.segmentOutcome = Except.ok ()) :
    ∃ clips,
      (generateClips video preciseMode preparedPath env).ret =
        Except.ok ⟨clips, env.elapsed⟩ ∧
      (generateClips video preciseMode preparedPath env).record.clips = clips ∧
      (generateClips video preciseMode preparedPath env).record.clipState =
        ClipState.DONE ∧
      List.Sorted (fun a b : String => a ≤ b) (clips.map ClipRecord.filename) ∧
      ∀ i (h : i < clips.length),
        (clips.get ⟨i, h⟩).startTime = (i : ℚ) * 120 ∧
        (clips.get ⟨i, h⟩).endTime =
          (clips.get ⟨i, h⟩).startTime + (clips.get ⟨i, h⟩).duration ∧
        (∀ pd d, env.probe ((clips.get ⟨i, h⟩).filename) = some pd →
          pd.duration = some d → d ≠ 0 → (clips.get ⟨i, h⟩).duration = d) ∧
        (env.probe ((clips.get ⟨i, h⟩).filename) = none →
          (clips.get ⟨i, h⟩).duration = 120) := by
  rw [generateClips_eq_run_of_not_skip video preciseMode preparedPath env hns]
  unfold generateClipsRun
  cases preciseMode with
  | false => exact segmentPhase_props _ _ _ env hseg
  | true =>
    cases hp : env.preparedExists with
    | true =>
      simp only [hp, Bool.true_eq_false, if_true, if_false, ite_true, ite_false]
      exact segmentPhase_props _ _ _ env hseg
    | false =>
      rcases hprep with h | h | h
      · cases h
      · rw [hp] at h; cases h
      · simp only [hp, h]
        exact segmentPhase_props _ _ _ env hseg

/-- Environment for the C6 witness: two chunks, the first probed
successfully at 110 seconds, the second with a failing probe. -/
def envProbed : ClipperEnv where
  diskFiles := []
  preparedExists := false
  prepareOutcome := Except.ok ()
  segmentOutcome := Except.ok ()
  segmentFiles := ["clip_000.mp4", "clip_001.mp4"]
  probe := fun f =>
    if f = "clip_000.mp4" then some ⟨some 110, some 30, some "1920x1080"⟩
    else none
  fileSize := fun _ => 500
  elapsed := 6

/-- Witness for C6 at a concrete successful run in which one chunk's probe
succeeds (duration 110) and the other chunk's probe fails. -/
theorem chunk_enumeration_witness :
    ∃ clips,
      (generateClips (sampleRecord "vid-a" ClipState.NOT_STARTED []) false
          "prepared.mp4" envProbed).ret = Except.ok ⟨clips, envProbed.elapsed⟩ ∧
      (generateClips (sampleRecord "vid-a" ClipState.NOT_STARTED []) false
          "prepared.mp4" envProbed).record.clips = clips ∧
      (generateClips (sampleRecord "vid-a" ClipState.NOT_STARTED []) false
          "prepared.mp4" envProbed).record.clipState = ClipState.DONE ∧
      List.Sorted (fun a b : String => a ≤ b) (clips.map ClipRecord.filename) ∧
      ∀ i (h : i < clips.length),
        (clips.get ⟨i, h⟩).startTime = (i : ℚ) * 120 ∧
        (clips.get ⟨i, h⟩).endTime =
          (clips.get ⟨i, h⟩).startTime + (clips.get ⟨i, h⟩).duration ∧
        (∀ pd d, envProbed.probe ((clips.get ⟨i, h⟩).filename) = some pd →
          pd.duration = some d → d ≠ 0 → (clips.get ⟨i, h⟩).duration = d) ∧
        (envProbed.probe ((clips.get ⟨i, h⟩).filename) = none →
          (clips.get ⟨i, h⟩).duration = 120) :=
  chunk_enumeration (sampleRecord "vid-a" ClipState.NOT_STARTED []) false
    "prepared.mp4" envProbed (by decide) (Or.inl rfl) rfl

/-- The per-record relation established by the Recovery Sweep: an
IN_PROGRESS record is stored back as FAILED with the fixed diagnostic and an
otherwise untouched payload; any other record is returned as-is. -/
def sweepRel (v w : VideoRecord) : Prop :=
  (v.clipState = ClipState.IN_PROGRESS →
    w = { v with clipState := ClipState.FAILED
                 lastError := some "Clipping was interrupted (app closed or crashed). Please retry." } ∧
    w.clipState = ClipState.FAILED ∧ w.lastError ≠ none ∧ w.clips = v.clips) ∧
  (v.clipState ≠ ClipState.IN_PROGRESS → w = v)

/-- C5: the Recovery Sweep relates every input record to its output record
by sweepRel: IN_PROGRESS records become FAILED with a non-null lastError and
an unchanged clips list, and records in any other state are completely
unchanged. -/
theorem recoverySweep_spec (videos : List VideoRecord) :
    List.Forall₂ sweepRel videos (recoverySweep videos) := by
  unfold recoverySweep
  rw [List.forall₂_map_right_iff]
  rw [List.forall₂_same]
  intro v hv
  unfold sweepRel
  constructor
  · intro h
    refine ⟨by simp [h], by simp [h], by simp [h], by simp [h]⟩
  · intro h
    simp [h]

/-- Witness for C5 on a concrete two-record store. -/
theorem recoverySweep_spec_witness :
    List.Forall₂ sweepRel
      [sampleRecord "vid-a" ClipState.IN_PROGRESS [],
       sampleRecord "vid-b" ClipState.DONE [doneClip]]
      (recoverySweep
        [sampleRecord "vid-a" ClipState.IN_PROGRESS [],
         sampleRecord "vid-b" ClipState.DONE [doneClip]]) :=
  recoverySweep_spec
    [sampleRecord "vid-a" ClipState.IN_PROGRESS [],
     sampleRecord "vid-b" ClipState.DONE [doneClip]]

/-- C8: rotation extraction prefers the first side_data_list entry carrying
a rotation; with no side-data rotation it is derived from tags.rotate; with
neither, rotation is reported absent. -/
theorem rotation_fallback (sdl : Option (List (Option ℤ))) (tag : Option String) :
    (∀ l r, sdl = some l → l.find? (fun e => e.isSome) = some (some r) →
        extractRotation ⟨sdl, tag⟩ = some (toString r ++ "°")) ∧
    ((sdl = none ∨ ∃ l, sdl = some l ∧ l.find? (fun e => e.isSome) = none) →
        extractRotation ⟨sdl, tag⟩ = tag.map (fun t => t ++ "°")) := by
  constructor
  · intro l r hsdl hfind
    simp [extractRotation, hsdl, hfind]
  · rintro (hsdl | ⟨l, hsdl, hfind⟩)
    · simp [extractRotation, hsdl]
    · simp [extractRotation, hsdl, hfind]

/-- Witness for C8: side-data rotation -90 wins over tags.rotate 270; with no
side-data rotation, tags.rotate 90 is used; with neither, none is reported. -/
theorem rotation_fallback_witness :
    extractRotation ⟨some [none, some (-90)], some "270"⟩ = some "-90°" ∧
    extractRotation ⟨none, some "90"⟩ = some "90°" ∧
    extractRotation ⟨some [none], none⟩ = none :=
  ⟨((rotation_fallback (some [none, some (-90)]) (some "270")).1
      [none, some (-90)] (-90) rfl (by decide)).trans (by decide),
   ((rotation_fallback none (some "90")).2 (Or.inl rfl)).trans (by decide),
   (rotation_fallback (some [none]) none).2 (Or.inr ⟨[none], rfl, by decide⟩)⟩

theorem run_fast (video : VideoRecord) (preparedPath : String) (env : ClipperEnv) :
    generateClipsRun video false preparedPath env =
      segmentPhase { video with clipState := ClipState.IN_PROGRESS
                                lastError := none }
        (deleteClipsFromDisk env.diskFiles) [] env := by
  simp [generateClipsRun]

theorem run_precise_fresh (video : VideoRecord) (preparedPath : String)
    (env : ClipperEnv) (h1 : env.preparedExists = false)
    (h2 : env.prepareOutcome = Except.ok ()) :
    generateClipsRun video true preparedPath env =
      segmentPhase { video with clipState := ClipState.IN_PROGRESS
                                lastError := none
                                preparedVideoPath := some preparedPath }
        (deleteClipsFromDisk env.diskFiles) [ToolCall.prepare] env := by
  simp [generateClipsRun, h1, h2]

theorem run_precise_cached (video : VideoRecord) (preparedPath : String)
    (env : ClipperEnv) (h : env.preparedExists = true) :
    generateClipsRun video true preparedPath env =
      segmentPhase { video with clipState := ClipState.IN_PROGRESS
                                lastError := none }
        (deleteClipsFromDisk env.diskFiles) [] env := by
  simp [generateClipsRun, h]

theorem segmentPhase_ret_ok (v : VideoRecord) (disk : List String)
    (calls0 : List ToolCall) (env : ClipperEnv)
    (h : env.segmentOutcome = Except.ok ()) :
    (segmentPhase v disk calls0 env).ret =
      Except.ok ⟨buildClips env 0 (((disk ++ env.segmentFiles).filter
          (fun f => strEndsWith f ".mp4")).insertionSort
          (fun a b => a.data ≤ b.data)),
        env.elapsed⟩ := by
  simp [segmentPhase, h]

theorem segmentPhase_count_prepare (v : VideoRecord) (disk : List String)
    (calls0 : List ToolCall) (env : ClipperEnv) :
    ((segmentPhase v disk calls0 env).calls).count ToolCall.prepare =
      calls0.count ToolCall.prepare := by
  cases hs : env.segmentOutcome with
  | error m =>
    simp [segmentPhase, failResult, hs, List.count_append]
  | ok u =>
    simp [segmentPhase, hs, List.count_append, List.count_eq_zero]

theorem segmentPhase_count_segment (v : VideoRecord) (disk : List String)
    (calls0 : List ToolCall) (env : ClipperEnv) :
    ((segmentPhase v disk calls0 env).calls).count ToolCall.segment =
      calls0.count ToolCall.segment + 1 := by
  cases hs : env.segmentOutcome with
  | error m =>
    simp [segmentPhase, failResult, hs, List.count_append]
  | ok u =>
    simp [segmentPhase, hs, List.count_append, List.count_eq_zero]

theorem segmentPhase_record_preparedVideoPath (v : VideoRecord)
    (disk : List String) (calls0 : List ToolCall) (env : ClipperEnv) :
    (segmentPhase v disk calls0 env).record.preparedVideoPath =
      v.preparedVideoPath := by
  cases hs : env.segmentOutcome <;> simp [segmentPhase, failResult, hs]

theorem generateClips_eq_run_of_cleared (video : VideoRecord) (preciseMode : Bool)
    (preparedPath : String) (env : ClipperEnv)
    (h : video.clips.all (fun c => env.diskFiles.contains c.filename) = false ∨
        video.clips = []) :
    generateClips video preciseMode preparedPath env =
      generateClipsRun video preciseMode preparedPath env := by
  apply generateClips_eq_run_of_not_skip
  rintro ⟨hd, hne, hall⟩
  rcases h with hf | hnil
  · have htrue : video.clips.all
        (fun c => env.diskFiles.contains c.filename) = true := by
      rw [List.all_eq_true]
      intro c hc
      simpa using hall c hc
    rw [htrue] at hf
    cases hf
  · exact hne hnil

/-- The C2 scenario record: nothing generated yet. -/
def vOffsets : VideoRecord := sampleRecord "vid-b" ClipState.NOT_STARTED []

/-- The C2 scenario environment: a fast-mode run producing three chunks whose
probed durations are 121.2, 118.9 and 45 seconds. -/
def envOffsets : ClipperEnv where
  diskFiles := []
  preparedExists := false
  prepareOutcome := Except.ok ()
  segmentOutcome := Except.ok ()
  segmentFiles := ["clip_000.mp4", "clip_001.mp4", "clip_002.mp4"]
  probe := fun f =>
    if f = "clip_000.mp4" then some ⟨some 121.2, none, none⟩
    else if f = "clip_001.mp4" then some ⟨some 118.9, none, none⟩
    else some ⟨some 45, none, none⟩
  fileSize := fun _ => 1000
  elapsed := 9

/-- Counterexample to C2: in the concrete three-chunk scenario the code
assigns start offsets 0, 120, 240 (index times the nominal 120), not the
cumulative probed sums 0, 121.2, 240.1 claimed by the spec. -/
theorem chunk_offset_counterexample :
    ∃ res, (generateClips vOffsets false "prepared.mp4" envOffsets).ret =
        Except.ok res ∧
      res.clips.map ClipRecord.startTime = [0, 120, 240] ∧
      res.clips.map ClipRecord.startTime ≠ [0, (121.2 : ℚ), 240.1] := by
  have hmap : (buildClips envOffsets 0
      ["clip_000.mp4", "clip_001.mp4", "clip_002.mp4"]).map ClipRecord.startTime =
      [0, 120, 240] := by
    simp +decide [buildClips, mkClip, getClipMetadata, envOffsets]
    norm_num
  refine ⟨⟨buildClips envOffsets 0
      ["clip_000.mp4", "clip_001.mp4", "clip_002.mp4"], envOffsets.elapsed⟩,
    ?_, hmap, ?_⟩
  · rw [generateClips_eq_run_of_not_skip vOffsets false "prepared.mp4" envOffsets
        (by decide),
      run_fast, segmentPhase_ret_ok _ _ _ _ rfl,
      (by decide : ((deleteClipsFromDisk envOffsets.diskFiles ++
          envOffsets.segmentFiles).filter
          (fun f => strEndsWith f ".mp4")).insertionSort
          (fun a b => a.data ≤ b.data) =
        ["clip_000.mp4", "clip_001.mp4", "clip_002.mp4"])]
  · rw [hmap]
    norm_num

/-- C2 amended: in the concrete scenario the start offsets are index times
the nominal 120 (0, 120, 240), the durations are the probed 121.2, 118.9,
45, and the end offsets are start plus duration (121.2, 238.9, 285). -/
theorem chunk_offset_amended :
    ∃ res, (generateClips vOffsets false "prepared.mp4" envOffsets).ret =
        Except.ok res ∧
      res.clips.map ClipRecord.startTime = [0, 120, 240] ∧
      res.clips.map ClipRecord.duration = [(121.2 : ℚ), 118.9, 45] ∧
      res.clips.map ClipRecord.endTime = [(121.2 : ℚ), 238.9, 285] := by
  refine ⟨⟨buildClips envOffsets 0
      ["clip_000.mp4", "clip_001.mp4", "clip_002.mp4"], envOffsets.elapsed⟩,
    ?_, ?_, ?_, ?_⟩
  · rw [generateClips_eq_run_of_not_skip vOffsets false "prepared.mp4" envOffsets
        (by decide),
      run_fast, segmentPhase_ret_ok _ _ _ _ rfl,
      (by decide : ((deleteClipsFromDisk envOffsets.diskFiles ++
          envOffsets.segmentFiles).filter
          (fun f => strEndsWith f ".mp4")).insertionSort
          (fun a b => a.data ≤ b.data) =
        ["clip_000.mp4", "clip_001.mp4", "clip_002.mp4"])]
  · simp +decide [buildClips, mkClip, getClipMetadata, envOffsets]
    norm_num
  · simp +decide [buildClips, mkClip, getClipMetadata, envOffsets]
    norm_num
  · simp +decide [buildClips, mkClip, getClipMetadata, envOffsets]
    norm_num

/-- The C3 scenario record: nothing generated yet, no prepared artifact. -/
def vPrecise : VideoRecord := sampleRecord "vid-c" ClipState.NOT_STARTED []

/-- The C3 scenario environment for the first precise-mode call. -/
def envPrecise1 : ClipperEnv where
  diskFiles := []
  preparedExists := false
  prepareOutcome := Except.ok ()
  segmentOutcome := Except.ok ()
  segmentFiles := ["clip_000.mp4"]
  probe := fun _ => some ⟨some 120, some 30, some "1920x1080"⟩
  fileSize := fun _ => 500
  elapsed := 4

/-- The second-call environment when nothing touched the disk in between:
the prepared artifact and the produced chunks are still there. -/
def envPrecise2undisturbed : ClipperEnv :=
  { envPrecise1 with
      diskFiles := (generateClips vPrecise true "prepared.mp4" envPrecise1).disk
      preparedExists := true }

/-- Counterexample to C3: two successive precise-mode calls with the disk
undisturbed in between perform only one segmentation invocation in total
(the second call takes the idempotency short-circuit), not two. -/
theorem precise_caching_counterexample :
    ((generateClips vPrecise true "prepared.mp4" envPrecise1).calls ++
        (generateClips (generateClips vPrecise true "prepared.mp4" envPrecise1).record
          true "prepared.mp4" envPrecise2undisturbed).calls).count
        ToolCall.segment = 1 ∧
    ¬(((generateClips vPrecise true "prepared.mp4" envPrecise1).calls ++
        (generateClips (generateClips vPrecise true "prepared.mp4" envPrecise1).record
          true "prepared.mp4" envPrecise2undisturbed).calls).count
        ToolCall.segment = 2) := by
  decide

/-- C3 amended: two successive precise-mode calls on an entity with no
prepared artifact, with the produced outputs cleared from disk before the
second call, perform exactly one preparation invocation and two segmentation
invocations; preparedVideoPath is set by the first call and unchanged by the
second. -/
theorem precise_caching_amended (video : VideoRecord) (preparedPath : String)
    (env1 env2 : ClipperEnv)
    (h0 : video.clipState ≠ ClipState.DONE)
    (h1 : env1.preparedExists = false)
    (h2 : env1.prepareOutcome = Except.ok ())
    (h3 : env1.segmentOutcome = Except.ok ())
    (h4 : env2.preparedExists = true)
    (hcleared : (generateClips video true preparedPath env1).record.clips.all
        (fun c => env2.diskFiles.contains c.filename) = false ∨
      (generateClips video true preparedPath env1).record.clips = []) :
    ((generateClips video true preparedPath env1).calls ++
        (generateClips (generateClips video true preparedPath env1).record true
          preparedPath env2).calls).count ToolCall.prepare = 1 ∧
    ((generateClips video true preparedPath env1).calls ++
        (generateClips (generateClips video true preparedPath env1).record true
          preparedPath env2).calls).count ToolCall.segment = 2 ∧
    (generateClips video true preparedPath env1).record.preparedVideoPath =
      some preparedPath ∧
    (generateClips (generateClips video true preparedPath env1).record true
        preparedPath env2).record.preparedVideoPath = some preparedPath := by
  have hr1 : generateClips video true preparedPath env1 =
      segmentPhase { video with clipState := ClipState.IN_PROGRESS
                                lastError := none
                                preparedVideoPath := some preparedPath }
        (deleteClipsFromDisk env1.diskFiles) [ToolCall.prepare] env1 := by
    rw [generateClips_eq_run_of_not_skip video true preparedPath env1
        (by rintro ⟨hd, -, -⟩; exact h0 hd),
      run_precise_fresh video preparedPath env1 h1 h2]
  have hppv1 : (generateClips video true preparedPath env1).record.preparedVideoPath =
      some preparedPath := by
    rw [hr1, segmentPhase_record_preparedVideoPath]
  have hr2 : generateClips (generateClips video true preparedPath env1).record true
      preparedPath env2 =
      segmentPhase { (generateClips video true preparedPath env1).record with
                     clipState := ClipState.IN_PROGRESS
                     lastError := none }
        (deleteClipsFromDisk env2.diskFiles) [] env2 := by
    rw [generateClips_eq_run_of_cleared _ true preparedPath env2 hcleared,
      run_precise_cached _ preparedPath env2 h4]
  refine ⟨?_, ?_, hppv1, ?_⟩
  · rw [List.count_append, hr2, hr1, segmentPhase_count_prepare,
      segmentPhase_count_prepare]
    simp
  · rw [List.count_append, hr2, hr1, segmentPhase_count_segment,
      segmentPhase_count_segment]
    simp
  · rw [hr2, segmentPhase_record_preparedVideoPath]
    simpa using hppv1

/-- The second-call environment for the amended C3 witness: the produced
chunks were cleared from disk, the prepared artifact remains. -/
def envPrecise2cleared : ClipperEnv :=
  { envPrecise1 with diskFiles := [], preparedExists := true }

/-- Witness for the amended C3 at concrete inputs. -/
theorem precise_caching_amended_witness :
    ((generateClips vPrecise true "prepared.mp4" envPrecise1).calls ++
        (generateClips (generateClips vPrecise true "prepared.mp4" envPrecise1).record
          true "prepared.mp4" envPrecise2cleared).calls).count
        ToolCall.prepare = 1 ∧
    ((generateClips vPrecise true "prepared.mp4" envPrecise1).calls ++
        (generateClips (generateClips vPrecise true "prepared.mp4" envPrecise1).record
          true "prepared.mp4" envPrecise2cleared).calls).count
        ToolCall.segment = 2 ∧
    (generateClips vPrecise true "prepared.mp4" envPrecise1).record.preparedVideoPath =
      some "prepared.mp4" ∧
    (generateClips (generateClips vPrecise true "prepared.mp4" envPrecise1).record
        true "prepared.mp4" envPrecise2cleared).record.preparedVideoPath =
      some "prepared.mp4" :=
  precise_caching_amended vPrecise "prepared.mp4" envPrecise1 envPrecise2cleared
    (by decide) rfl rfl rfl rfl (Or.inl (by decide))

end Rellingth
